import Mathlib

/-!
Shallow embedding of the daemon state-management and dispatch engine of the
LACT daemon (`daemon/src/lib.rs`): the device-reconciliation procedure
`Daemon::load_gpu_controllers` and the request dispatch state machine
`Daemon::handle_connection`, together with the protocol types.

The `config`, `gpu_controller` and `hw_mon` modules are not part of the
sources here; the data they define (the Device Identifier, the Per-Device
Settings, the Configuration Store) and the GPU-controller operation interface
are modelled from the specification, as noted on each such definition.  The
dispatch and reconciliation logic itself is translated from
`daemon/src/lib.rs`.  Side effects (configuration saves, the response written
on the stream, socket-file removal, process exit) are recorded as an ordered
trace of `Effect`s.
-/

namespace Lact

/-- Modelled from the spec: the power-profile enumeration of the missing
`gpu_controller` module; the dispatch only names `PowerProfile::Auto`. -/
inductive PowerProfile where
  | Auto
  | Low
  | High
deriving DecidableEq

/-- Modelled from the spec: the Device Identifier of the missing
`gpu_controller` module — a hardware fingerprint (bus address plus
vendor/device/subsystem identifiers); equality is exact and field-wise. -/
structure GpuIdentifier where
  pci_id : String
  vendor_id : Nat
  device_id : Nat
  subsys_vendor_id : Nat
  subsys_device_id : Nat
deriving DecidableEq

/-- Modelled from the spec: the Per-Device Settings persisted in the
Configuration Store (fan curve, fan-control flag, power cap, power profile,
staged clock-state edits); the `config` module defining them is missing. -/
structure GpuConfig where
  fan_control_enabled : Bool := false
  fan_curve : List (Int × Rat) := []
  power_cap : Int := 0
  power_profile : PowerProfile := PowerProfile.Auto
  gpu_max_power_state : Option (Int × Option Int) := none
  vram_max_clock : Option Int := none
deriving DecidableEq

/-- `GpuConfig::new()`: the default Per-Device Settings. -/
def GpuConfig.new : GpuConfig := {}

/-- Modelled from the spec: vendor/model display data inside `GpuInfo`. -/
structure VendorData where
  card_model : Option String := none
  gpu_model : Option String := none
deriving DecidableEq

/-- Modelled from the spec: the static device info snapshot. -/
structure GpuInfo where
  vendor_data : VendorData := {}
deriving DecidableEq

/-- Modelled from the spec: the live telemetry snapshot. -/
structure GpuStats where
  mem_used : Nat := 0
  gpu_temp : Int := 0
deriving DecidableEq

/-- Modelled from the spec: the fan-control status snapshot. -/
structure FanControlInfo where
  enabled : Bool := false
  curve : List (Int × Rat) := []
deriving DecidableEq

/-- Modelled from the spec: the Configuration Store of the missing `config`
module — a persisted mapping from numeric handle to (Device Identifier,
Per-Device Settings) plus global options.  The mapping is modelled as an
association list with deterministic iteration order. -/
structure Config where
  gpu_configs : List (Nat × GpuIdentifier × GpuConfig) := []
  allow_online_update : Option Bool := none
  config_path : String := "/etc/lact.json"
deriving DecidableEq

/-- Association-list lookup, the model of `HashMap::get`. -/
def lookupA {α : Type} : List (Nat × α) → Nat → Option α
  | [], _ => none
  | (k, v) :: rest, i => if k = i then some v else lookupA rest i

/-- Association-list insert, the model of `HashMap::insert`: replace the
entry in place when the key is present, append otherwise. -/
def insertA {α : Type} : List (Nat × α) → Nat → α → List (Nat × α)
  | [], i, v => [(i, v)]
  | (k, w) :: rest, i, v =>
      if k = i then (i, v) :: rest else (k, w) :: insertA rest i v

/-- The linear search of `load_gpu_controllers` over `config.gpu_configs`:
the first entry whose stored Device Identifier equals the discovered one
(first match wins). -/
def firstMatch : List (Nat × GpuIdentifier × GpuConfig) → GpuIdentifier →
    Option (Nat × GpuIdentifier × GpuConfig)
  | [], _ => none
  | e :: rest, d => if e.2.1 = d then some e else firstMatch rest d

/-- Modelled from the spec: the GPU Controller interface invoked by the
daemon; the `gpu_controller` module is missing, so the controller is an
abstract state type `C` together with the operations the daemon calls.
Mutating operations return the updated controller state and a success flag
(`false` models an `Err` result); queries return `none` on an `Err`. -/
structure ControllerOps (C : Type) where
  new : String → GpuConfig → C
  get_identifier : C → GpuIdentifier
  get_config : C → GpuConfig
  load_config : C → GpuConfig → C
  get_info : C → GpuInfo
  get_stats : C → Option GpuStats
  get_fan_control : C → Option FanControlInfo
  get_power_cap : C → Option (Int × Int)
  start_fan_control : C → C × Bool
  stop_fan_control : C → C × Bool
  set_fan_curve : C → List (Int × Rat) → C × Bool
  set_power_cap : C → Int → C × Bool
  set_power_profile : C → PowerProfile → C × Bool
  set_gpu_max_power_state : C → Int → Option Int → C × Bool
  set_vram_max_clockspeed : C → Int → C × Bool
  commit_gpu_power_states : C → C × Bool
  reset_gpu_power_states : C → C × Bool

/-- The protocol request variants (`enum Action`). -/
inductive Action where
  | CheckAlive
  | GetConfig
  | SetConfig (config : Lact.Config)
  | GetGpus
  | GetInfo (i : Nat)
  | GetStats (i : Nat)
  | StartFanControl (i : Nat)
  | StopFanControl (i : Nat)
  | GetFanControl (i : Nat)
  | SetFanCurve (i : Nat) (curve : List (Int × Rat))
  | SetPowerCap (i : Nat) (cap : Int)
  | GetPowerCap (i : Nat)
  | SetPowerProfile (i : Nat) (profile : PowerProfile)
  | SetGPUMaxPowerState (i : Nat) (clockspeed : Int) (voltage : Option Int)
  | SetVRAMMaxClock (i : Nat) (clockspeed : Int)
  | CommitGPUPowerStates (i : Nat)
  | ResetGPUPowerStates (i : Nat)
  | Shutdown

/-- The protocol response variants (`enum DaemonResponse`). -/
inductive DaemonResponse where
  | OK
  | GpuInfo (info : Lact.GpuInfo)
  | GpuStats (stats : Lact.GpuStats)
  | Gpus (gpus : List (Nat × Option String))
  | PowerCap (cap : Int × Int)
  | FanControlInfo (info : Lact.FanControlInfo)
  | Config (config : Lact.Config)
deriving DecidableEq

/-- The protocol error variants (`enum DaemonError`). -/
inductive DaemonError where
  | ConnectionFailed
  | InvalidID
  | HWMonError
  | ControllerError
deriving DecidableEq

/-- The `Result<DaemonResponse, DaemonError>` a handler produces. -/
inductive DResult where
  | ok (r : DaemonResponse)
  | err (e : DaemonError)
deriving DecidableEq

/-- Observable side effects of handling one connection, in trace order:
a configuration save to disk, the encoded response written back on the
stream, an attempt to remove the socket file, process exit, and an `unwrap`
failure aborting the handler. -/
inductive Effect where
  | save (config : Lact.Config)
  | respond (r : DResult)
  | removeSocketAttempt
  | exitProcess
  | abortUnwind
deriving DecidableEq

/-- A directory entry of `/sys/class/drm` as seen by `read_dir`. -/
structure DirEntry where
  name : String
  path : String
deriving DecidableEq

/-- The device-name filter of `load_gpu_controllers`:
`entry.file_name().len() == 5 && file_name.split_at(4).0 == "card"`. -/
def acceptName (s : String) : Bool :=
  s.length == 5 && s.take 4 == "card"

/-- The state built up by the `'entries` loop of `load_gpu_controllers`:
the controller map, the (mutated) configuration, how many random draws have
been consumed, and, as an observation, the handle assigned to each accepted
device in discovery order. -/
structure ReconState (C : Type) where
  controllers : List (Nat × C)
  config : Config
  randIdx : Nat
  assignments : List Nat

/-- `u32` cardinality: handles are random 32-bit integers. -/
def U32 : Nat := 2 ^ 32

/-- The controller built for a discovered entry:
`GpuController::new(entry.path().join("device"), GpuConfig::new(), pci_db)`. -/
def newCtrl {C : Type} (ops : ControllerOps C) (e : DirEntry) : C :=
  ops.new (e.path ++ "/device") GpuConfig.new

/-- The Device Identifier a discovered entry reports:
`controller.get_identifier()` on the freshly built controller. -/
def identOf {C : Type} (ops : ControllerOps C) (e : DirEntry) : GpuIdentifier :=
  ops.get_identifier (newCtrl ops e)

/-- One iteration of the `'entries` loop in `Daemon::load_gpu_controllers`:
filter the entry name, build a controller with default settings
(`newCtrl ops e`), read its identifier (`identOf ops e`), and search the
store for the first entry with an equal identifier; on a match load the
persisted settings into the controller and register it under the stored
handle; otherwise draw a random handle, insert a fresh store entry with the
controller's identifier and settings, and register under the fresh handle. -/
def reconStep {C : Type} (ops : ControllerOps C) (rand : Nat → Nat)
    (s : ReconState C) (e : DirEntry) : ReconState C :=
  if acceptName e.name then
    match firstMatch s.config.gpu_configs (identOf ops e) with
    | some (id, _, gpu_config) =>
        { s with
          controllers := insertA s.controllers id
            (ops.load_config (newCtrl ops e) gpu_config)
          assignments := s.assignments ++ [id] }
    | none =>
        { s with
          config := { s.config with
            gpu_configs := insertA s.config.gpu_configs (rand s.randIdx % U32)
              (identOf ops e, ops.get_config (newCtrl ops e)) }
          controllers := insertA s.controllers (rand s.randIdx % U32)
            (newCtrl ops e)
          randIdx := s.randIdx + 1
          assignments := s.assignments ++ [rand s.randIdx % U32] }
  else s

/-- `Daemon::load_gpu_controllers`: reconcile the discovered device entries
against the Configuration Store, starting from an empty controller map.  The
random draws are supplied by `rand` (the `k`-th call of `random()` returns
`rand k`, reduced to 32 bits). -/
def Daemon.load_gpu_controllers {C : Type} (ops : ControllerOps C)
    (rand : Nat → Nat) (entries : List DirEntry) (config : Config) :
    ReconState C :=
  entries.foldl (reconStep ops rand) ⟨[], config, 0, []⟩

/-- The daemon state threaded through the dispatch loop (`struct Daemon`,
without the OS-owned listener handle). -/
structure Daemon (C : Type) where
  gpu_controllers : List (Nat × C)
  config : Config

/-- The shared shape of the nine mutating handlers in
`Daemon::handle_connection`: look up the controller for the handle and run
the mutating controller operation; on success write the controller's current
identifier and settings back into the store entry for the handle and save the
whole store before answering `OK`; on failure answer with the handler's error
kind; a missing handle answers `InvalidID`. -/
def Daemon.mutHandler {C : Type} (ops : ControllerOps C) (s : Daemon C)
    (i : Nat) (op : C → C × Bool) (ek : DaemonError) :
    Daemon C × List Effect × Option DResult :=
  match lookupA s.gpu_controllers i with
  | some controller =>
      match op controller with
      | (c2, true) =>
          let config2 : Config := { s.config with
            gpu_configs := insertA s.config.gpu_configs i
              (ops.get_identifier c2, ops.get_config c2) }
          ({ gpu_controllers := insertA s.gpu_controllers i c2, config := config2 },
           [Effect.save config2], some (DResult.ok DaemonResponse.OK))
      | (c2, false) =>
          ({ s with gpu_controllers := insertA s.gpu_controllers i c2 },
           [], some (DResult.err ek))
  | none => (s, [], some (DResult.err DaemonError.InvalidID))

/-- The shared shape of the fallible read-only handlers (`GetStats`,
`GetFanControl`, `GetPowerCap`). -/
def Daemon.queryHandler {C : Type} (s : Daemon C) (i : Nat)
    (q : C → Option DaemonResponse) : Daemon C × List Effect × Option DResult :=
  match lookupA s.gpu_controllers i with
  | some controller =>
      match q controller with
      | some r => (s, [], some (DResult.ok r))
      | none => (s, [], some (DResult.err DaemonError.HWMonError))
  | none => (s, [], some (DResult.err DaemonError.InvalidID))

/-- The `Action::Shutdown` loop over the controller map: per controller,
best-effort reset of staged clock edits, commit, default power profile, then
a conditional fan-control stop driven by the persisted settings (the store
lookup `unwrap` aborts when the handle is missing), and — still inside the
loop body — the socket-file removal attempt.  Returns the updated controller
list, the effect trace of the loop, and whether an `unwrap` aborted it. -/
def Daemon.shutdownLoop {C : Type} (ops : ControllerOps C) (config : Config) :
    List (Nat × C) → List (Nat × C) × List Effect × Bool
  | [] => ([], [], false)
  | (id, controller) :: rest =>
      let c1 := (ops.reset_gpu_power_states controller).1
      let c2 := (ops.commit_gpu_power_states c1).1
      let c3 := (ops.set_power_profile c2 PowerProfile.Auto).1
      match lookupA config.gpu_configs id with
      | none => ((id, c3) :: rest, [Effect.abortUnwind], true)
      | some entry =>
          let c4 := if entry.2.fan_control_enabled
            then (ops.stop_fan_control c3).1 else c3
          let r := Daemon.shutdownLoop ops config rest
          ((id, c4) :: r.1, Effect.removeSocketAttempt :: r.2.1, r.2.2)

/-- The big `match action` of `Daemon::handle_connection`: returns the
updated daemon state, the side-effect trace of the handler, and the response
to serialize (`none` when the handler exits the process instead). -/
def Daemon.dispatchAction {C : Type} (ops : ControllerOps C)
    (entries : List DirEntry) (rand : Nat → Nat) (s : Daemon C)
    (action : Action) : Daemon C × List Effect × Option DResult :=
  match action with
  | Action.CheckAlive => (s, [], some (DResult.ok DaemonResponse.OK))
  | Action.GetGpus =>
      (s, [], some (DResult.ok (DaemonResponse.Gpus
        (s.gpu_controllers.map
          (fun p => (p.1, (ops.get_info p.2).vendor_data.gpu_model))))))
  | Action.GetStats i =>
      Daemon.queryHandler s i
        (fun c => (ops.get_stats c).map DaemonResponse.GpuStats)
  | Action.GetInfo i =>
      match lookupA s.gpu_controllers i with
      | some controller =>
          (s, [], some (DResult.ok (DaemonResponse.GpuInfo (ops.get_info controller))))
      | none => (s, [], some (DResult.err DaemonError.InvalidID))
  | Action.StartFanControl i =>
      Daemon.mutHandler ops s i ops.start_fan_control DaemonError.HWMonError
  | Action.StopFanControl i =>
      Daemon.mutHandler ops s i ops.stop_fan_control DaemonError.HWMonError
  | Action.GetFanControl i =>
      Daemon.queryHandler s i
        (fun c => (ops.get_fan_control c).map DaemonResponse.FanControlInfo)
  | Action.SetFanCurve i curve =>
      Daemon.mutHandler ops s i (fun c => ops.set_fan_curve c curve)
        DaemonError.HWMonError
  | Action.SetPowerCap i cap =>
      Daemon.mutHandler ops s i (fun c => ops.set_power_cap c cap)
        DaemonError.HWMonError
  | Action.GetPowerCap i =>
      Daemon.queryHandler s i
        (fun c => (ops.get_power_cap c).map DaemonResponse.PowerCap)
  | Action.SetPowerProfile i profile =>
      Daemon.mutHandler ops s i (fun c => ops.set_power_profile c profile)
        DaemonError.ControllerError
  | Action.SetGPUMaxPowerState i clockspeed voltage =>
      Daemon.mutHandler ops s i
        (fun c => ops.set_gpu_max_power_state c clockspeed voltage)
        DaemonError.ControllerError
  | Action.SetVRAMMaxClock i clockspeed =>
      Daemon.mutHandler ops s i (fun c => ops.set_vram_max_clockspeed c clockspeed)
        DaemonError.ControllerError
  | Action.CommitGPUPowerStates i =>
      Daemon.mutHandler ops s i ops.commit_gpu_power_states
        DaemonError.ControllerError
  | Action.ResetGPUPowerStates i =>
      Daemon.mutHandler ops s i ops.reset_gpu_power_states
        DaemonError.ControllerError
  | Action.Shutdown =>
      let r := Daemon.shutdownLoop ops s.config s.gpu_controllers
      ({ s with gpu_controllers := r.1 },
       (if r.2.2 then r.2.1 else r.2.1 ++ [Effect.exitProcess]), none)
  | Action.SetConfig config =>
      let r := Daemon.load_gpu_controllers ops rand entries config
      ({ gpu_controllers := r.controllers, config := r.config },
       [Effect.save r.config], some (DResult.ok DaemonResponse.OK))
  | Action.GetConfig =>
      (s, [], some (DResult.ok (DaemonResponse.Config s.config)))

/-- `Daemon::handle_connection`: decode the buffered request (`decoded` is
the result of `bincode::deserialize`); a decode failure is logged and the
connection dropped with no response and no state change; otherwise dispatch
the action and write the response back (the `Shutdown` handler exits the
process instead of responding). -/
def Daemon.handle_connection {C : Type} (ops : ControllerOps C)
    (entries : List DirEntry) (rand : Nat → Nat) (s : Daemon C)
    (decoded : Option Action) : Daemon C × List Effect :=
  match decoded with
  | none => (s, [])
  | some action =>
      match Daemon.dispatchAction ops entries rand s action with
      | (s2, effs, some r) => (s2, effs ++ [Effect.respond r])
      | (s2, effs, none) => (s2, effs)

/-- Modelled from the spec: a concrete GPU Controller realizing the abstract
interface, used to instantiate the theorems — it tracks the identifier, the
live settings and the hardware power-cap bounds; `set_power_cap` validates
the requested value against the hardware `[min, max]` before any write, and
`set_fan_curve` rejects a curve with no points. -/
structure SimpleController where
  ident : GpuIdentifier
  cfg : GpuConfig
  power_min : Int := 0
  power_max : Int := 300
deriving DecidableEq

/-- The concrete operation table for `SimpleController`. -/
def simpleOps : ControllerOps SimpleController where
  new p d :=
    { ident := { pci_id := p, vendor_id := 4098, device_id := 0,
                 subsys_vendor_id := 0, subsys_device_id := 0 }
      cfg := d }
  get_identifier c := c.ident
  get_config c := c.cfg
  load_config c d := { c with cfg := d }
  get_info _ := {}
  get_stats _ := some {}
  get_fan_control c :=
    some { enabled := c.cfg.fan_control_enabled, curve := c.cfg.fan_curve }
  get_power_cap c := some (c.cfg.power_cap, c.power_max)
  start_fan_control c :=
    ({ c with cfg := { c.cfg with fan_control_enabled := true } }, true)
  stop_fan_control c :=
    ({ c with cfg := { c.cfg with fan_control_enabled := false } }, true)
  set_fan_curve c curve :=
    if curve = [] then (c, false)
    else ({ c with cfg := { c.cfg with fan_curve := curve } }, true)
  set_power_cap c cap :=
    if c.power_min ≤ cap ∧ cap ≤ c.power_max
    then ({ c with cfg := { c.cfg with power_cap := cap } }, true)
    else (c, false)
  set_power_profile c p :=
    ({ c with cfg := { c.cfg with power_profile := p } }, true)
  set_gpu_max_power_state c cl v :=
    ({ c with cfg := { c.cfg with gpu_max_power_state := some (cl, v) } }, true)
  set_vram_max_clockspeed c cl :=
    ({ c with cfg := { c.cfg with vram_max_clock := some cl } }, true)
  commit_gpu_power_states c := (c, true)
  reset_gpu_power_states c :=
    ({ c with cfg := { c.cfg with gpu_max_power_state := none,
                                  vram_max_clock := none } }, true)

/-! ### Association-list lemmas -/

theorem lookupA_nil {α : Type} (k : Nat) : lookupA ([] : List (Nat × α)) k = none := rfl

theorem lookupA_cons {α : Type} (k' : Nat) (v : α) (m : List (Nat × α)) (k : Nat) :
    lookupA ((k', v) :: m) k = if k' = k then some v else lookupA m k := rfl

theorem lookupA_append_of_none {α : Type} {a : List (Nat × α)} {k : Nat}
    (b : List (Nat × α)) (h : lookupA a k = none) :
    lookupA (a ++ b) k = lookupA b k := by
  induction a with
  | nil => simp
  | cons p rest ih =>
      obtain ⟨k', v⟩ := p
      rw [lookupA_cons] at h
      by_cases hk : k' = k
      · simp [hk] at h
      · rw [List.cons_append, lookupA_cons, if_neg hk]
        exact ih (by simpa [hk] using h)

theorem lookupA_insertA_self {α : Type} (m : List (Nat × α)) (k : Nat) (v : α) :
    lookupA (insertA m k v) k = some v := by
  induction m with
  | nil => simp [insertA, lookupA]
  | cons p rest ih =>
      obtain ⟨k', w⟩ := p
      by_cases hk : k' = k
      · simp [insertA, hk, lookupA]
      · simp [insertA, hk, lookupA, ih]

theorem lookupA_insertA_isSome {α : Type} {m : List (Nat × α)} {j : Nat}
    (k : Nat) (v : α) (h : (lookupA m j).isSome = true) :
    (lookupA (insertA m k v) j).isSome = true := by
  induction m with
  | nil => simp [lookupA] at h
  | cons p rest ih =>
      obtain ⟨k', w⟩ := p
      simp only [insertA]
      by_cases hk : k' = k
      · subst hk
        rw [if_pos rfl, lookupA_cons]
        by_cases hj : k' = j
        · simp [hj]
        · rw [lookupA_cons, if_neg hj] at h
          simp [hj, h]
      · rw [if_neg hk, lookupA_cons]
        by_cases hj : k' = j
        · simp [hj]
        · rw [lookupA_cons, if_neg hj] at h
          simp [hj, ih h]

theorem insertA_of_lookupA_none {α : Type} {m : List (Nat × α)} {k : Nat}
    (v : α) (h : lookupA m k = none) : insertA m k v = m ++ [(k, v)] := by
  induction m with
  | nil => simp [insertA]
  | cons p rest ih =>
      obtain ⟨k', w⟩ := p
      rw [lookupA_cons] at h
      by_cases hk : k' = k
      · simp [hk] at h
      · rw [List.cons_append]
        simp only [insertA, if_neg hk]
        exact congrArg _ (ih (by simpa [hk] using h))

theorem mem_insertA {α : Type} {m : List (Nat × α)} {k : Nat} {v : α}
    {p : Nat × α} (h : p ∈ insertA m k v) : p = (k, v) ∨ p ∈ m := by
  induction m with
  | nil => simpa [insertA] using h
  | cons q rest ih =>
      obtain ⟨k', w⟩ := q
      by_cases hk : k' = k
      · simp only [insertA, if_pos hk, List.mem_cons] at h
        rcases h with h | h
        · exact Or.inl h
        · exact Or.inr (List.mem_cons_of_mem _ h)
      · simp only [insertA, if_neg hk, List.mem_cons] at h
        rcases h with h | h
        · exact Or.inr (by simp [h])
        · rcases ih h with h' | h'
          · exact Or.inl h'
          · exact Or.inr (List.mem_cons_of_mem _ h')

theorem lookupA_eq_some_mem {α : Type} {m : List (Nat × α)} {k : Nat} {v : α}
    (h : lookupA m k = some v) : (k, v) ∈ m := by
  induction m with
  | nil => simp [lookupA] at h
  | cons q rest ih =>
      obtain ⟨k', w⟩ := q
      rw [lookupA_cons] at h
      by_cases hk : k' = k
      · subst hk
        rw [if_pos rfl] at h
        obtain rfl := Option.some.inj h
        exact List.mem_cons_self _ _
      · rw [if_neg hk] at h
        exact List.mem_cons_of_mem _ (ih h)

theorem mem_lookupA_isSome {α : Type} {m : List (Nat × α)} {k : Nat} {v : α}
    (h : (k, v) ∈ m) : (lookupA m k).isSome = true := by
  induction m with
  | nil => simp at h
  | cons q rest ih =>
      obtain ⟨k', w⟩ := q
      rcases List.mem_cons.mp h with h' | h'
      · cases h'
        simp [lookupA]
      · by_cases hk : k' = k
        · simp [lookupA, hk]
        · simp [lookupA, hk, ih h']

/-! ### `firstMatch` lemmas -/

theorem firstMatch_cons (e : Nat × GpuIdentifier × GpuConfig)
    (rest : List (Nat × GpuIdentifier × GpuConfig)) (d : GpuIdentifier) :
    firstMatch (e :: rest) d =
      if e.2.1 = d then some e else firstMatch rest d := rfl

theorem firstMatch_append_of_some {a : List (Nat × GpuIdentifier × GpuConfig)}
    {d : GpuIdentifier} {t : Nat × GpuIdentifier × GpuConfig}
    (b : List (Nat × GpuIdentifier × GpuConfig))
    (h : firstMatch a d = some t) : firstMatch (a ++ b) d = some t := by
  induction a with
  | nil => simp [firstMatch] at h
  | cons p rest ih =>
      rw [firstMatch_cons] at h
      rw [List.cons_append, firstMatch_cons]
      by_cases hp : p.2.1 = d
      · rwa [if_pos hp] at h ⊢
      · rw [if_neg hp] at h ⊢
        exact ih h

theorem firstMatch_append_of_none {a : List (Nat × GpuIdentifier × GpuConfig)}
    {d : GpuIdentifier} (b : List (Nat × GpuIdentifier × GpuConfig))
    (h : firstMatch a d = none) : firstMatch (a ++ b) d = firstMatch b d := by
  induction a with
  | nil => simp
  | cons p rest ih =>
      rw [firstMatch_cons] at h
      rw [List.cons_append, firstMatch_cons]
      by_cases hp : p.2.1 = d
      · rw [if_pos hp] at h
        exact absurd h (by simp)
      · rw [if_neg hp] at h ⊢
        exact ih h

theorem firstMatch_cons_self (k : Nat) (d : GpuIdentifier) (g : GpuConfig)
    (b : List (Nat × GpuIdentifier × GpuConfig)) :
    firstMatch ((k, d, g) :: b) d = some (k, d, g) := by
  rw [firstMatch_cons, if_pos rfl]

theorem firstMatch_mem {m : List (Nat × GpuIdentifier × GpuConfig)}
    {d : GpuIdentifier} {t : Nat × GpuIdentifier × GpuConfig}
    (h : firstMatch m d = some t) : t ∈ m := by
  induction m with
  | nil => simp [firstMatch] at h
  | cons p rest ih =>
      rw [firstMatch_cons] at h
      by_cases hp : p.2.1 = d
      · rw [if_pos hp] at h
        obtain rfl := Option.some.inj h
        exact List.mem_cons_self _ _
      · rw [if_neg hp] at h
        exact List.mem_cons_of_mem _ (ih h)

theorem firstMatch_isSome_lookupA {m : List (Nat × GpuIdentifier × GpuConfig)}
    {d : GpuIdentifier} {t : Nat × GpuIdentifier × GpuConfig}
    (h : firstMatch m d = some t) : (lookupA m t.1).isSome = true := by
  have hmem : t ∈ m := firstMatch_mem h
  obtain ⟨k, rest⟩ := t
  exact mem_lookupA_isSome hmem

/-! ### Views over the request variants used to state the claims -/

/-- The state-mutating request variants, each with the handle it targets and
the controller operation its handler runs. -/
def mutOp {C : Type} (ops : ControllerOps C) : Action → Option (Nat × (C → C × Bool))
  | Action.StartFanControl i => some (i, ops.start_fan_control)
  | Action.StopFanControl i => some (i, ops.stop_fan_control)
  | Action.SetFanCurve i curve => some (i, fun c => ops.set_fan_curve c curve)
  | Action.SetPowerCap i cap => some (i, fun c => ops.set_power_cap c cap)
  | Action.SetPowerProfile i p => some (i, fun c => ops.set_power_profile c p)
  | Action.SetGPUMaxPowerState i cl v =>
      some (i, fun c => ops.set_gpu_max_power_state c cl v)
  | Action.SetVRAMMaxClock i cl => some (i, fun c => ops.set_vram_max_clockspeed c cl)
  | Action.CommitGPUPowerStates i => some (i, ops.commit_gpu_power_states)
  | Action.ResetGPUPowerStates i => some (i, ops.reset_gpu_power_states)
  | _ => none

/-- The request variants that target a device by handle, and that handle. -/
def targetHandle : Action → Option Nat
  | Action.GetInfo i | Action.GetStats i | Action.StartFanControl i
  | Action.StopFanControl i | Action.GetFanControl i | Action.SetFanCurve i _
  | Action.SetPowerCap i _ | Action.GetPowerCap i | Action.SetPowerProfile i _
  | Action.SetGPUMaxPowerState i _ _ | Action.SetVRAMMaxClock i _
  | Action.CommitGPUPowerStates i | Action.ResetGPUPowerStates i => some i
  | _ => none

/-- The error kind a mutating handler reports when its controller operation
fails, as written in the dispatch arms of `handle_connection`. -/
def errKind : Action → Option DaemonError
  | Action.StartFanControl _ | Action.StopFanControl _
  | Action.SetFanCurve _ _ | Action.SetPowerCap _ _ => some DaemonError.HWMonError
  | Action.SetPowerProfile _ _ | Action.SetGPUMaxPowerState _ _ _
  | Action.SetVRAMMaxClock _ _ | Action.CommitGPUPowerStates _
  | Action.ResetGPUPowerStates _ => some DaemonError.ControllerError
  | _ => none

/-- How many socket-removal attempts a trace records. -/
def countRemovals : List Effect → Nat
  | [] => 0
  | Effect.removeSocketAttempt :: rest => countRemovals rest + 1
  | _ :: rest => countRemovals rest

/-- The coverage invariant: every handle registered in the live controller
map also keys an entry of the Configuration Store. -/
def StoreCoversControllers {C : Type} (s : Daemon C) : Prop :=
  ∀ p ∈ s.gpu_controllers, (lookupA s.config.gpu_configs p.1).isSome = true

theorem countRemovals_append (a b : List Effect) :
    countRemovals (a ++ b) = countRemovals a + countRemovals b := by
  induction a with
  | nil => simp [countRemovals]
  | cons e rest ih =>
      rw [List.cons_append]
      cases e <;> simp only [countRemovals, ih]
      all_goals omega

/-! ### Concrete fixtures used by the witnesses -/

/-- A concrete Device Identifier. -/
def wIdent : GpuIdentifier :=
  { pci_id := "p0/device", vendor_id := 4098, device_id := 0,
    subsys_vendor_id := 0, subsys_device_id := 0 }

/-- A second concrete Device Identifier. -/
def wIdent2 : GpuIdentifier :=
  { pci_id := "p1/device", vendor_id := 4098, device_id := 1,
    subsys_vendor_id := 0, subsys_device_id := 0 }

/-- A concrete controller carrying `wIdent` and default settings. -/
def wCtrl : SimpleController := { ident := wIdent, cfg := GpuConfig.new }

/-- A concrete controller carrying `wIdent2` and default settings. -/
def wCtrl2 : SimpleController := { ident := wIdent2, cfg := GpuConfig.new }

/-- A daemon state with one controller under handle `1`, covered by the
store. -/
def wState : Daemon SimpleController :=
  { gpu_controllers := [(1, wCtrl)],
    config := { gpu_configs := [(1, wIdent, GpuConfig.new)] } }

/-- A daemon state with two controllers under handles `1` and `2`, covered by
the store. -/
def wState2 : Daemon SimpleController :=
  { gpu_controllers := [(1, wCtrl), (2, wCtrl2)],
    config := { gpu_configs := [(1, wIdent, GpuConfig.new),
                                (2, wIdent2, GpuConfig.new)] } }

/-- `wCtrl` after `set_power_profile Low`. -/
def wCtrlLow : SimpleController :=
  { ident := wIdent, cfg := { power_profile := PowerProfile.Low } }

/-- A daemon state with an empty controller map. -/
def wStateEmpty : Daemon SimpleController :=
  { gpu_controllers := [], config := {} }

/-! ### Handler-shape lemmas -/

/-- The store as written back by a successful mutating handler: the entry for
handle `i` holds the controller's current identifier and settings. -/
def storeUpdated {C : Type} (ops : ControllerOps C) (cfg : Config) (i : Nat)
    (c2 : C) : Config :=
  { cfg with
      gpu_configs := insertA cfg.gpu_configs i
        (ops.get_identifier c2, ops.get_config c2) }

theorem mutHandler_success {C : Type} {ops : ControllerOps C} {s : Daemon C}
    {i : Nat} {op : C → C × Bool} {ek : DaemonError} {c c2 : C}
    (hc : lookupA s.gpu_controllers i = some c) (hsucc : op c = (c2, true)) :
    Daemon.mutHandler ops s i op ek =
      ({ gpu_controllers := insertA s.gpu_controllers i c2,
         config := storeUpdated ops s.config i c2 },
       [Effect.save (storeUpdated ops s.config i c2)],
       some (DResult.ok DaemonResponse.OK)) := by
  simp [Daemon.mutHandler, storeUpdated, hc, hsucc]

theorem mutHandler_failure {C : Type} {ops : ControllerOps C} {s : Daemon C}
    {i : Nat} {op : C → C × Bool} {ek : DaemonError} {c c2 : C}
    (hc : lookupA s.gpu_controllers i = some c) (hfail : op c = (c2, false)) :
    Daemon.mutHandler ops s i op ek =
      ({ s with gpu_controllers := insertA s.gpu_controllers i c2 },
       [], some (DResult.err ek)) := by
  simp [Daemon.mutHandler, hc, hfail]

theorem mutHandler_missing {C : Type} {ops : ControllerOps C} {s : Daemon C}
    {i : Nat} {op : C → C × Bool} {ek : DaemonError}
    (hnone : lookupA s.gpu_controllers i = none) :
    Daemon.mutHandler ops s i op ek =
      (s, [], some (DResult.err DaemonError.InvalidID)) := by
  simp [Daemon.mutHandler, hnone]

theorem queryHandler_missing {C : Type} {s : Daemon C} {i : Nat}
    (q : C → Option DaemonResponse)
    (hnone : lookupA s.gpu_controllers i = none) :
    Daemon.queryHandler s i q =
      (s, [], some (DResult.err DaemonError.InvalidID)) := by
  simp [Daemon.queryHandler, hnone]

/-! ### C1 -/

/-- C1: for every state-mutating request variant (`StartFanControl`,
`StopFanControl`, `SetFanCurve`, `SetPowerCap`, `SetPowerProfile`,
`SetGPUMaxPowerState`, `SetVRAMMaxClock`, `CommitGPUPowerStates`,
`ResetGPUPowerStates`) whose controller operation succeeds, the handler
writes the controller's current Device Identifier and settings back into the
Configuration Store entry for the handle and appends a save of the whole
store to the trace strictly before the `OK` response is written back. -/
theorem mutating_success_persists_before_response {C : Type}
    (ops : ControllerOps C) (entries : List DirEntry) (rand : Nat → Nat)
    (s : Daemon C) (a : Action) (i : Nat) (f : C → C × Bool) (c c2 : C)
    (hop : mutOp ops a = some (i, f))
    (hc : lookupA s.gpu_controllers i = some c)
    (hsucc : f c = (c2, true)) :
    Daemon.handle_connection ops entries rand s (some a) =
      ({ gpu_controllers := insertA s.gpu_controllers i c2,
         config := storeUpdated ops s.config i c2 },
       [Effect.save (storeUpdated ops s.config i c2),
        Effect.respond (DResult.ok DaemonResponse.OK)]) := by
  cases a <;> simp only [mutOp, reduceCtorEq, Option.some.injEq,
    Prod.mk.injEq] at hop
  all_goals
    obtain ⟨rfl, rfl⟩ := hop
  all_goals
    simp [Daemon.handle_connection, Daemon.dispatchAction, Daemon.mutHandler,
          storeUpdated, hc, hsucc]

/-- Witness for C1 at a concrete `SetPowerProfile` request. -/
theorem mutating_success_persists_before_response_witness :
    Daemon.handle_connection simpleOps [] (fun _ => 0) wState
        (some (Action.SetPowerProfile 1 PowerProfile.Low)) =
      ({ gpu_controllers := insertA wState.gpu_controllers 1 wCtrlLow,
         config := storeUpdated simpleOps wState.config 1 wCtrlLow },
       [Effect.save (storeUpdated simpleOps wState.config 1 wCtrlLow),
        Effect.respond (DResult.ok DaemonResponse.OK)]) :=
  mutating_success_persists_before_response simpleOps [] (fun _ => 0) wState
    (Action.SetPowerProfile 1 PowerProfile.Low) 1
    (fun c => simpleOps.set_power_profile c PowerProfile.Low) wCtrl wCtrlLow
    rfl rfl rfl

/-! ### C4 -/

/-- C4: every request variant that targets a device by handle answers the
uniform `InvalidID` error when the handle is absent from the controller map,
with the daemon state unchanged and no store update or save in the trace. -/
theorem missing_handle_uniform_invalid_id {C : Type}
    (ops : ControllerOps C) (entries : List DirEntry) (rand : Nat → Nat)
    (s : Daemon C) (a : Action) (i : Nat)
    (ht : targetHandle a = some i)
    (hnone : lookupA s.gpu_controllers i = none) :
    Daemon.handle_connection ops entries rand s (some a) =
      (s, [Effect.respond (DResult.err DaemonError.InvalidID)]) := by
  cases a <;> try simp only [targetHandle, reduceCtorEq] at ht
  all_goals
    simp only [targetHandle, Option.some.injEq] at ht
  all_goals
    subst ht
  all_goals
    simp [Daemon.handle_connection, Daemon.dispatchAction, Daemon.mutHandler,
          Daemon.queryHandler, hnone]

/-- Witness for C4 at a concrete `GetInfo` on an unknown handle. -/
theorem missing_handle_uniform_invalid_id_witness :
    Daemon.handle_connection simpleOps [] (fun _ => 0) wState
        (some (Action.GetInfo 99)) =
      (wState, [Effect.respond (DResult.err DaemonError.InvalidID)]) :=
  missing_handle_uniform_invalid_id simpleOps [] (fun _ => 0) wState
    (Action.GetInfo 99) 99 rfl rfl

/-! ### C6 -/

/-- C6 counterexample: a power cap rejected by validation before any hardware
write (1000 is outside the modelled hardware range [0, 300]) is answered with
the hardware-monitor error kind, not the controller-logic kind — the
`SetPowerCap` dispatch arm maps every failure to `HWMonError`. -/
theorem power_cap_validation_reports_hwmon_error :
    Daemon.handle_connection simpleOps [] (fun _ => 0) wState
        (some (Action.SetPowerCap 1 1000)) =
      (wState, [Effect.respond (DResult.err DaemonError.HWMonError)]) ∧
    DaemonError.HWMonError ≠ DaemonError.ControllerError :=
  ⟨rfl, by decide⟩

/-- C6 amended: when a mutating request's controller operation fails, the
dispatch reports the fixed error kind of that arm — `HWMonError` for the
fan-control, fan-curve and power-cap handlers, `ControllerError` for the
power-profile and clock-state handlers — with no store update and no save. -/
theorem mutating_failure_reports_fixed_error_kind {C : Type}
    (ops : ControllerOps C) (entries : List DirEntry) (rand : Nat → Nat)
    (s : Daemon C) (a : Action) (i : Nat) (f : C → C × Bool) (c c2 : C)
    (e : DaemonError)
    (hop : mutOp ops a = some (i, f))
    (hk : errKind a = some e)
    (hc : lookupA s.gpu_controllers i = some c)
    (hfail : f c = (c2, false)) :
    Daemon.handle_connection ops entries rand s (some a) =
      ({ s with gpu_controllers := insertA s.gpu_controllers i c2 },
       [Effect.respond (DResult.err e)]) := by
  cases a <;> simp only [mutOp, reduceCtorEq, Option.some.injEq,
    Prod.mk.injEq] at hop
  all_goals
    simp only [errKind, Option.some.injEq] at hk
  all_goals
    obtain ⟨rfl, rfl⟩ := hop
  all_goals
    subst hk
  all_goals
    simp [Daemon.handle_connection, Daemon.dispatchAction, Daemon.mutHandler,
          hc, hfail]

/-- Witness for the amended C6 at a concrete out-of-range `SetPowerCap`. -/
theorem mutating_failure_reports_fixed_error_kind_witness :
    Daemon.handle_connection simpleOps [] (fun _ => 0) wState
        (some (Action.SetPowerCap 1 1000)) =
      ({ wState with gpu_controllers := insertA wState.gpu_controllers 1 wCtrl },
       [Effect.respond (DResult.err DaemonError.HWMonError)]) :=
  mutating_failure_reports_fixed_error_kind simpleOps [] (fun _ => 0) wState
    (Action.SetPowerCap 1 1000) 1 (fun c => simpleOps.set_power_cap c 1000)
    wCtrl wCtrl DaemonError.HWMonError rfl rfl rfl rfl

/-! ### C7 -/

/-- C7: a connection whose payload fails to decode produces no response
effect, no save, and leaves the daemon state unchanged — the connection is
simply dropped. -/
theorem decode_failure_drops_connection_silently {C : Type}
    (ops : ControllerOps C) (entries : List DirEntry) (rand : Nat → Nat)
    (s : Daemon C) :
    Daemon.handle_connection ops entries rand s none = (s, []) := rfl

/-! ### C8 -/

/-- C8: `SetConfig` replaces the daemon's Configuration Store with the
supplied one, discards the previous controller map entirely, re-runs the
reconciliation procedure against the discovered entries and the new store,
saves the resulting store, and acknowledges with `OK`. -/
theorem set_config_replaces_and_rebuilds {C : Type}
    (ops : ControllerOps C) (entries : List DirEntry) (rand : Nat → Nat)
    (s : Daemon C) (config : Config) :
    Daemon.handle_connection ops entries rand s (some (Action.SetConfig config)) =
      ({ gpu_controllers :=
           (Daemon.load_gpu_controllers ops rand entries config).controllers,
         config := (Daemon.load_gpu_controllers ops rand entries config).config },
       [Effect.save (Daemon.load_gpu_controllers ops rand entries config).config,
        Effect.respond (DResult.ok DaemonResponse.OK)]) := rfl

/-! ### C5 / C10: the shutdown loop -/

theorem shutdownLoop_covered {C : Type} (ops : ControllerOps C) (config : Config) :
    ∀ l : List (Nat × C),
      (∀ p ∈ l, (lookupA config.gpu_configs p.1).isSome = true) →
      (Daemon.shutdownLoop ops config l).2.2 = false ∧
      countRemovals (Daemon.shutdownLoop ops config l).2.1 = l.length := by
  intro l
  induction l with
  | nil => intro _; exact ⟨rfl, rfl⟩
  | cons p rest ih =>
      intro hcov
      obtain ⟨id, controller⟩ := p
      have hid : (lookupA config.gpu_configs id).isSome = true :=
        hcov (id, controller) (List.mem_cons_self _ _)
      obtain ⟨entry, hentry⟩ := Option.isSome_iff_exists.mp hid
      have hrest := ih (fun q hq => hcov q (List.mem_cons_of_mem _ hq))
      simp only [Daemon.shutdownLoop, hentry]
      exact ⟨hrest.1, by simp [countRemovals, hrest.2]⟩

/-- C5: at the failing input — `Shutdown` with an empty controller map — the
handler exits the process without ever attempting to remove the socket
endpoint, because the removal attempt sits inside the per-controller loop. -/
theorem shutdown_empty_map_exits_without_removal :
    (Daemon.handle_connection simpleOps [] (fun _ => 0) wStateEmpty
        (some Action.Shutdown)).2 = [Effect.exitProcess] ∧
    countRemovals (Daemon.handle_connection simpleOps [] (fun _ => 0) wStateEmpty
        (some Action.Shutdown)).2 = 0 :=
  ⟨rfl, rfl⟩

/-- C10: under the coverage invariant the `Shutdown` handler records exactly
one socket-removal attempt per live controller, inside the loop: an empty
map exits with no removal at all, and two or more controllers produce more
than one removal attempt. -/
theorem shutdown_attempts_removal_per_controller {C : Type}
    (ops : ControllerOps C) (entries : List DirEntry) (rand : Nat → Nat)
    (s : Daemon C) (hcov : StoreCoversControllers s) :
    countRemovals
        (Daemon.handle_connection ops entries rand s (some Action.Shutdown)).2 =
      s.gpu_controllers.length ∧
    (s.gpu_controllers = [] →
      (Daemon.handle_connection ops entries rand s (some Action.Shutdown)).2 =
        [Effect.exitProcess]) ∧
    (2 ≤ s.gpu_controllers.length →
      2 ≤ countRemovals
        (Daemon.handle_connection ops entries rand s (some Action.Shutdown)).2) := by
  obtain ⟨hab, hcnt⟩ := shutdownLoop_covered ops s.config s.gpu_controllers hcov
  have h2 : (Daemon.handle_connection ops entries rand s (some Action.Shutdown)).2 =
      (Daemon.shutdownLoop ops s.config s.gpu_controllers).2.1 ++ [Effect.exitProcess] := by
    simp [Daemon.handle_connection, Daemon.dispatchAction, hab]
  refine ⟨?_, ?_, ?_⟩
  · rw [h2, countRemovals_append, hcnt]
    simp [countRemovals]
  · intro hnil
    rw [hnil] at h2
    simpa [Daemon.shutdownLoop] using h2
  · intro hlen
    rw [h2, countRemovals_append, hcnt]
    omega

/-- Witness for C10 at a concrete two-controller state. -/
theorem shutdown_attempts_removal_per_controller_witness :
    countRemovals (Daemon.handle_connection simpleOps [] (fun _ => 0) wState2
        (some Action.Shutdown)).2 = 2 :=
  (shutdown_attempts_removal_per_controller simpleOps [] (fun _ => 0) wState2
    (by unfold StoreCoversControllers; decide)).1

/-! ### C9: the coverage invariant -/

theorem queryHandler_fst {C : Type} (s : Daemon C) (i : Nat)
    (q : C → Option DaemonResponse) : (Daemon.queryHandler s i q).1 = s := by
  rcases hL : lookupA s.gpu_controllers i with _ | c
  · simp [Daemon.queryHandler, hL]
  · rcases hq : q c with _ | r <;> simp [Daemon.queryHandler, hL, hq]

theorem handle_connection_fst {C : Type} (ops : ControllerOps C)
    (entries : List DirEntry) (rand : Nat → Nat) (s : Daemon C) (a : Action) :
    (Daemon.handle_connection ops entries rand s (some a)).1 =
      (Daemon.dispatchAction ops entries rand s a).1 := by
  rcases h : Daemon.dispatchAction ops entries rand s a with ⟨s2, effs, r⟩
  cases r <;> simp [Daemon.handle_connection, h]

theorem mutHandler_covered {C : Type} {ops : ControllerOps C} {s : Daemon C}
    {i : Nat} {op : C → C × Bool} {ek : DaemonError}
    (hs : StoreCoversControllers s) :
    StoreCoversControllers (Daemon.mutHandler ops s i op ek).1 := by
  rcases hL : lookupA s.gpu_controllers i with _ | c
  · rw [mutHandler_missing hL]
    exact hs
  · rcases hop2 : op c with ⟨c2, b⟩
    cases b
    · rw [mutHandler_failure hL hop2]
      intro p hp
      rcases mem_insertA hp with rfl | hp'
      · exact hs (i, c) (lookupA_eq_some_mem hL)
      · exact hs p hp'
    · rw [mutHandler_success hL hop2]
      intro p hp
      rcases mem_insertA hp with rfl | hp'
      · simp [storeUpdated, lookupA_insertA_self]
      · exact lookupA_insertA_isSome _ _ (hs p hp')

theorem reconStep_covered {C : Type} (ops : ControllerOps C) (rand : Nat → Nat)
    {s : ReconState C} (e : DirEntry)
    (hs : ∀ p ∈ s.controllers, (lookupA s.config.gpu_configs p.1).isSome = true) :
    ∀ p ∈ (reconStep ops rand s e).controllers,
      (lookupA (reconStep ops rand s e).config.gpu_configs p.1).isSome = true := by
  by_cases hacc : acceptName e.name = true
  · rcases hm : firstMatch s.config.gpu_configs (identOf ops e) with
      _ | ⟨id, gid, gcfg⟩
    · simp only [reconStep, hacc, if_true, hm]
      intro p hp
      rcases mem_insertA hp with rfl | hp'
      · exact lookupA_insertA_self .. ▸ rfl
      · exact lookupA_insertA_isSome _ _ (hs p hp')
    · simp only [reconStep, hacc, if_true, hm]
      intro p hp
      rcases mem_insertA hp with rfl | hp'
      · exact firstMatch_isSome_lookupA hm
      · exact hs p hp'
  · simpa only [reconStep, hacc, if_false, Bool.false_eq_true] using hs

theorem reconFold_covered {C : Type} (ops : ControllerOps C) (rand : Nat → Nat) :
    ∀ (entries : List DirEntry) (s : ReconState C),
      (∀ p ∈ s.controllers, (lookupA s.config.gpu_configs p.1).isSome = true) →
      ∀ p ∈ (entries.foldl (reconStep ops rand) s).controllers,
        (lookupA (entries.foldl (reconStep ops rand) s).config.gpu_configs
          p.1).isSome = true := by
  intro entries
  induction entries with
  | nil => intro s hs; simpa using hs
  | cons e rest ih =>
      intro s hs
      rw [List.foldl_cons]
      exact ih _ (reconStep_covered ops rand e hs)

theorem shutdownLoop_fst {C : Type} (ops : ControllerOps C) (config : Config) :
    ∀ l : List (Nat × C),
      ((Daemon.shutdownLoop ops config l).1).map Prod.fst = l.map Prod.fst := by
  intro l
  induction l with
  | nil => rfl
  | cons p rest ih =>
      obtain ⟨id, controller⟩ := p
      rcases hL : lookupA config.gpu_configs id with _ | entry
      · simp [Daemon.shutdownLoop, hL]
      · simp [Daemon.shutdownLoop, hL, ih]

/-- C9: the coverage invariant — every handle keying the live controller map
also keys a Configuration Store entry — holds after reconciliation from any
store, and is preserved by the dispatch of every request (which is what makes
the unconditional store lookup in the `Shutdown` loop well-defined). -/
theorem controllers_covered_by_store {C : Type} (ops : ControllerOps C)
    (entries : List DirEntry) (rand : Nat → Nat) :
    (∀ config : Config,
      ∀ p ∈ (Daemon.load_gpu_controllers ops rand entries config).controllers,
        (lookupA (Daemon.load_gpu_controllers ops rand entries
          config).config.gpu_configs p.1).isSome = true) ∧
    (∀ (s : Daemon C) (a : Action), StoreCoversControllers s →
        StoreCoversControllers
          (Daemon.handle_connection ops entries rand s (some a)).1) := by
  constructor
  · intro config
    exact reconFold_covered ops rand entries ⟨[], config, 0, []⟩
      (by intro p hp; simp at hp)
  · intro s a hs
    rw [handle_connection_fst]
    cases a
    case CheckAlive => exact hs
    case GetConfig => exact hs
    case GetGpus => exact hs
    case SetConfig config =>
        intro p hp
        exact reconFold_covered ops rand entries ⟨[], config, 0, []⟩
          (by intro q hq; simp at hq) p hp
    case GetInfo i =>
        rcases hL : lookupA s.gpu_controllers i with _ | c <;>
          (simp only [Daemon.dispatchAction, hL]; exact hs)
    case GetStats i =>
        simp only [Daemon.dispatchAction, queryHandler_fst]
        exact hs
    case GetFanControl i =>
        simp only [Daemon.dispatchAction, queryHandler_fst]
        exact hs
    case GetPowerCap i =>
        simp only [Daemon.dispatchAction, queryHandler_fst]
        exact hs
    case StartFanControl i =>
        simpa only [Daemon.dispatchAction] using mutHandler_covered hs
    case StopFanControl i =>
        simpa only [Daemon.dispatchAction] using mutHandler_covered hs
    case SetFanCurve i curve =>
        simpa only [Daemon.dispatchAction] using mutHandler_covered hs
    case SetPowerCap i cap =>
        simpa only [Daemon.dispatchAction] using mutHandler_covered hs
    case SetPowerProfile i profile =>
        simpa only [Daemon.dispatchAction] using mutHandler_covered hs
    case SetGPUMaxPowerState i clockspeed voltage =>
        simpa only [Daemon.dispatchAction] using mutHandler_covered hs
    case SetVRAMMaxClock i clockspeed =>
        simpa only [Daemon.dispatchAction] using mutHandler_covered hs
    case CommitGPUPowerStates i =>
        simpa only [Daemon.dispatchAction] using mutHandler_covered hs
    case ResetGPUPowerStates i =>
        simpa only [Daemon.dispatchAction] using mutHandler_covered hs
    case Shutdown =>
        simp only [Daemon.dispatchAction]
        intro p hp
        have hp1 : p.1 ∈ ((Daemon.shutdownLoop ops s.config
            s.gpu_controllers).1).map Prod.fst := List.mem_map_of_mem _ hp
        rw [shutdownLoop_fst] at hp1
        obtain ⟨q, hq, hq1⟩ := List.mem_map.mp hp1
        exact hq1 ▸ hs q hq

/-- Witness for C9 at a concrete state and request. -/
theorem controllers_covered_by_store_witness :
    StoreCoversControllers (Daemon.handle_connection simpleOps [] (fun _ => 0)
      wState (some (Action.SetPowerProfile 1 PowerProfile.Low))).1 :=
  (controllers_covered_by_store simpleOps [] (fun _ => 0)).2 wState
    (Action.SetPowerProfile 1 PowerProfile.Low)
    (by unfold StoreCoversControllers; decide)

/-! ### C2: the per-device reconciliation step -/

/-- C2: for an accepted discovered device, the reconciliation loop body
searches the store for the first entry whose Device Identifier equals the
discovered one; on a match it loads the persisted settings into the
controller and registers it under the stored handle with the store untouched,
and on no match it draws a fresh random 32-bit handle, inserts a store entry
holding the controller's identifier and its default settings, and registers
the controller under that handle. -/
theorem reconcile_device_step {C : Type} (ops : ControllerOps C)
    (rand : Nat → Nat) (s : ReconState C) (e : DirEntry)
    (hacc : acceptName e.name = true)
    (hdef : ops.get_config (newCtrl ops e) = GpuConfig.new) :
    (∀ id gid gcfg,
        firstMatch s.config.gpu_configs (identOf ops e) = some (id, gid, gcfg) →
        reconStep ops rand s e =
          { s with
            controllers := insertA s.controllers id
              (ops.load_config (newCtrl ops e) gcfg),
            assignments := s.assignments ++ [id] }) ∧
    (firstMatch s.config.gpu_configs (identOf ops e) = none →
        rand s.randIdx % U32 < U32 ∧
        reconStep ops rand s e =
          { s with
            config := { s.config with
              gpu_configs := insertA s.config.gpu_configs (rand s.randIdx % U32)
                (identOf ops e, GpuConfig.new) },
            controllers := insertA s.controllers (rand s.randIdx % U32)
              (newCtrl ops e),
            randIdx := s.randIdx + 1,
            assignments := s.assignments ++ [rand s.randIdx % U32] }) := by
  constructor
  · intro id gid gcfg h
    simp [reconStep, hacc, h]
  · intro h
    refine ⟨Nat.mod_lt _ (by norm_num [U32]), ?_⟩
    simp [reconStep, hacc, h, hdef]

/-- Reconciliation state fixture: a store already holding `wIdent` under
handle `7`. -/
def wRcMatch : ReconState SimpleController :=
  ⟨[], { gpu_configs := [(7, wIdent, GpuConfig.new)] }, 0, []⟩

/-- Reconciliation state fixture: an empty store. -/
def wRcFresh : ReconState SimpleController := ⟨[], {}, 0, []⟩

/-- A discovered `card0` entry whose identifier is `wIdent`. -/
def wE0 : DirEntry := ⟨"card0", "p0"⟩

/-- Witness for C2: the matched and the fresh branch at concrete inputs. -/
theorem reconcile_device_step_witness :
    (reconStep simpleOps (fun _ => 9) wRcMatch wE0 =
      { wRcMatch with
        controllers := insertA wRcMatch.controllers 7
          (simpleOps.load_config (newCtrl simpleOps wE0) GpuConfig.new),
        assignments := wRcMatch.assignments ++ [7] }) ∧
    (reconStep simpleOps (fun _ => 9) wRcFresh wE0 =
      { wRcFresh with
        config := { wRcFresh.config with
          gpu_configs := insertA wRcFresh.config.gpu_configs (9 % U32)
            (identOf simpleOps wE0, GpuConfig.new) },
        controllers := insertA wRcFresh.controllers (9 % U32)
          (newCtrl simpleOps wE0),
        randIdx := wRcFresh.randIdx + 1,
        assignments := wRcFresh.assignments ++ [9 % U32] }) :=
  ⟨(reconcile_device_step simpleOps (fun _ => 9) wRcMatch wE0 rfl rfl).1
      7 wIdent GpuConfig.new rfl,
   ((reconcile_device_step simpleOps (fun _ => 9) wRcFresh wE0 rfl rfl).2 rfl).2⟩

/-! ### C3: idempotent recognition -/

theorem filter_accept_cons_pos {e : DirEntry} (rest : List DirEntry)
    (hacc : acceptName e.name = true) :
    (e :: rest).filter (fun x => acceptName x.name) =
      e :: rest.filter (fun x => acceptName x.name) := by
  simp [List.filter_cons, hacc]

theorem filter_accept_cons_neg {e : DirEntry} (rest : List DirEntry)
    (hacc : ¬ acceptName e.name = true) :
    (e :: rest).filter (fun x => acceptName x.name) =
      rest.filter (fun x => acceptName x.name) := by
  simp [List.filter_cons, hacc]

theorem forall₂_fun_mem {α : Type} {f : α → Option Nat} :
    ∀ {l : List α} {L : List Nat},
      List.Forall₂ (fun e h => f e = some h) l L →
      ∀ a ∈ l, (f a).isSome = true := by
  intro l L h
  induction h with
  | nil => intro a ha; simp at ha
  | cons hr _ ih =>
      intro a ha
      rcases List.mem_cons.mp ha with rfl | ha'
      · simp [hr]
      · exact ih a ha'

theorem forall₂_fun_unique {α : Type} {f : α → Option Nat} :
    ∀ {l : List α} {L1 L2 : List Nat},
      List.Forall₂ (fun e h => f e = some h) l L1 →
      List.Forall₂ (fun e h => f e = some h) l L2 → L1 = L2 := by
  intro l L1 L2 h1 h2
  induction h1 generalizing L2 with
  | nil => cases h2; rfl
  | cons hr ht ih =>
      cases h2 with
      | cons hr2 ht2 =>
          rw [hr] at hr2
          obtain rfl := Option.some.inj hr2
          rw [ih ht2]

/-- A reconciliation run on a store that already recognizes every accepted
entry leaves the store untouched and assigns each entry its first-match
handle. -/
theorem recon_all_match {C : Type} (ops : ControllerOps C) (rand : Nat → Nat) :
    ∀ (entries : List DirEntry) (s : ReconState C),
      (∀ e ∈ entries, acceptName e.name = true →
        (firstMatch s.config.gpu_configs (identOf ops e)).isSome = true) →
      (entries.foldl (reconStep ops rand) s).config = s.config ∧
      ∃ asg, (entries.foldl (reconStep ops rand) s).assignments =
          s.assignments ++ asg ∧
        List.Forall₂ (fun e h =>
            (firstMatch s.config.gpu_configs (identOf ops e)).map
              (fun t => t.1) = some h)
          (entries.filter (fun x => acceptName x.name)) asg := by
  intro entries
  induction entries with
  | nil =>
      intro s _
      exact ⟨rfl, [], by simp, List.Forall₂.nil⟩
  | cons e rest ih =>
      intro s hall
      rw [List.foldl_cons]
      by_cases hacc : acceptName e.name = true
      · have hsome := hall e (List.mem_cons_self _ _) hacc
        obtain ⟨t, ht⟩ := Option.isSome_iff_exists.mp hsome
        obtain ⟨id, gid, gcfg⟩ := t
        have hstep : reconStep ops rand s e =
            { s with
              controllers := insertA s.controllers id
                (ops.load_config (newCtrl ops e) gcfg),
              assignments := s.assignments ++ [id] } := by
          simp [reconStep, hacc, ht]
        rw [hstep]
        obtain ⟨hcfg, asg, h4, h5⟩ := ih
          { s with
            controllers := insertA s.controllers id
              (ops.load_config (newCtrl ops e) gcfg),
            assignments := s.assignments ++ [id] }
          (fun e2 he2 ha2 => hall e2 (List.mem_cons_of_mem _ he2) ha2)
        refine ⟨hcfg, id :: asg, ?_, ?_⟩
        · rw [h4]
          show s.assignments ++ [id] ++ asg = s.assignments ++ (id :: asg)
          rw [List.append_assoc]
          rfl
        · rw [filter_accept_cons_pos _ hacc]
          refine List.Forall₂.cons ?_ h5
          rw [ht]
          rfl
      · have hstep : reconStep ops rand s e = s := by simp [reconStep, hacc]
        rw [hstep]
        obtain ⟨hcfg, asg, h4, h5⟩ := ih s
          (fun e2 he2 ha2 => hall e2 (List.mem_cons_of_mem _ he2) ha2)
        refine ⟨hcfg, asg, h4, ?_⟩
        rw [filter_accept_cons_neg _ hacc]
        exact h5

/-- The first reconciliation run from a store whose random draws are fresh:
the store only grows at the end, and afterwards the first match of every
accepted entry's identifier yields exactly the handle the run assigned it. -/
theorem recon_first_run {C : Type} (ops : ControllerOps C) (rand : Nat → Nat) :
    ∀ (entries : List DirEntry) (s : ReconState C),
      (∀ j, s.randIdx ≤ j → j < s.randIdx + entries.length →
        lookupA s.config.gpu_configs (rand j % U32) = none) →
      (∀ j k, j < s.randIdx + entries.length → k < s.randIdx + entries.length →
        j ≠ k → rand j % U32 ≠ rand k % U32) →
      ∃ ext asg,
        (entries.foldl (reconStep ops rand) s).config.gpu_configs =
          s.config.gpu_configs ++ ext ∧
        (entries.foldl (reconStep ops rand) s).assignments =
          s.assignments ++ asg ∧
        List.Forall₂ (fun e h =>
            (firstMatch (entries.foldl (reconStep ops rand)
                s).config.gpu_configs (identOf ops e)).map (fun t => t.1) =
              some h)
          (entries.filter (fun x => acceptName x.name)) asg := by
  intro entries
  induction entries with
  | nil =>
      intro s _ _
      exact ⟨[], [], by simp, by simp, List.Forall₂.nil⟩
  | cons e rest ih =>
      intro s hfresh hinj
      rw [List.foldl_cons]
      by_cases hacc : acceptName e.name = true
      · rcases hm : firstMatch s.config.gpu_configs (identOf ops e) with
          _ | ⟨id, gid, gcfg⟩
        · -- no match: a fresh handle is drawn and the store entry appended
          have hstep : reconStep ops rand s e =
              { s with
                config := { s.config with
                  gpu_configs := insertA s.config.gpu_configs
                    (rand s.randIdx % U32)
                    (identOf ops e, ops.get_config (newCtrl ops e)) },
                controllers := insertA s.controllers (rand s.randIdx % U32)
                  (newCtrl ops e),
                randIdx := s.randIdx + 1,
                assignments := s.assignments ++ [rand s.randIdx % U32] } := by
            simp [reconStep, hacc, hm]
          have hr : lookupA s.config.gpu_configs (rand s.randIdx % U32) = none :=
            hfresh s.randIdx le_rfl (by simp only [List.length_cons]; omega)
          have happ : insertA s.config.gpu_configs (rand s.randIdx % U32)
              (identOf ops e, ops.get_config (newCtrl ops e)) =
              s.config.gpu_configs ++ [(rand s.randIdx % U32, identOf ops e,
                ops.get_config (newCtrl ops e))] :=
            insertA_of_lookupA_none _ hr
          rw [hstep]
          have hfresh2 : ∀ j, s.randIdx + 1 ≤ j →
              j < (s.randIdx + 1) + rest.length →
              lookupA (insertA s.config.gpu_configs (rand s.randIdx % U32)
                (identOf ops e, ops.get_config (newCtrl ops e)))
                (rand j % U32) = none := by
            intro j hj1 hj2
            rw [happ, lookupA_append_of_none _
              (hfresh j (by omega) (by simp only [List.length_cons]; omega))]
            have hne : rand s.randIdx % U32 ≠ rand j % U32 :=
              hinj s.randIdx j (by simp only [List.length_cons]; omega)
                (by simp only [List.length_cons]; omega) (by omega)
            simp [lookupA, hne]
          have hinj2 : ∀ j k, j < (s.randIdx + 1) + rest.length →
              k < (s.randIdx + 1) + rest.length → j ≠ k →
              rand j % U32 ≠ rand k % U32 := by
            intro j k hj hk hne
            exact hinj j k (by simp only [List.length_cons]; omega)
              (by simp only [List.length_cons]; omega) hne
          obtain ⟨ext, asg, h1, h2, h3⟩ := ih
            { s with
              config := { s.config with
                gpu_configs := insertA s.config.gpu_configs
                  (rand s.randIdx % U32)
                  (identOf ops e, ops.get_config (newCtrl ops e)) },
              controllers := insertA s.controllers (rand s.randIdx % U32)
                (newCtrl ops e),
              randIdx := s.randIdx + 1,
              assignments := s.assignments ++ [rand s.randIdx % U32] }
            hfresh2 hinj2
          refine ⟨(rand s.randIdx % U32, identOf ops e,
              ops.get_config (newCtrl ops e)) :: ext,
            rand s.randIdx % U32 :: asg, ?_, ?_, ?_⟩
          · rw [h1]
            show insertA s.config.gpu_configs (rand s.randIdx % U32)
              (identOf ops e, ops.get_config (newCtrl ops e)) ++ ext = _
            rw [happ, List.append_assoc]
            rfl
          · rw [h2]
            show s.assignments ++ [rand s.randIdx % U32] ++ asg = _
            rw [List.append_assoc]
            rfl
          · rw [filter_accept_cons_pos _ hacc]
            refine List.Forall₂.cons ?_ h3
            rw [h1]
            show (firstMatch (insertA s.config.gpu_configs (rand s.randIdx % U32)
              (identOf ops e, ops.get_config (newCtrl ops e)) ++ ext)
              (identOf ops e)).map (fun t => t.1) = _
            rw [happ, List.append_assoc, firstMatch_append_of_none _ hm,
              List.singleton_append, firstMatch_cons_self]
            rfl
        · -- match: register under the stored handle, store untouched
          have hstep : reconStep ops rand s e =
              { s with
                controllers := insertA s.controllers id
                  (ops.load_config (newCtrl ops e) gcfg),
                assignments := s.assignments ++ [id] } := by
            simp [reconStep, hacc, hm]
          rw [hstep]
          obtain ⟨ext, asg, h1, h2, h3⟩ := ih
            { s with
              controllers := insertA s.controllers id
                (ops.load_config (newCtrl ops e) gcfg),
              assignments := s.assignments ++ [id] }
            (fun j hj1 hj2 =>
              hfresh j hj1 (by simp only [List.length_cons] at hj2 ⊢; omega))
            (fun j k hj hk hne =>
              hinj j k (by simp only [List.length_cons] at hj ⊢; omega)
                (by simp only [List.length_cons] at hk ⊢; omega) hne)
          refine ⟨ext, id :: asg, h1, ?_, ?_⟩
          · rw [h2]
            show s.assignments ++ [id] ++ asg = _
            rw [List.append_assoc]
            rfl
          · rw [filter_accept_cons_pos _ hacc]
            refine List.Forall₂.cons ?_ h3
            rw [h1]
            show (firstMatch (s.config.gpu_configs ++ ext) (identOf ops e)).map
              (fun t => t.1) = some id
            rw [firstMatch_append_of_some _ hm]
            rfl
      · have hstep : reconStep ops rand s e = s := by simp [reconStep, hacc]
        rw [hstep]
        obtain ⟨ext, asg, h1, h2, h3⟩ := ih s
          (fun j hj1 hj2 =>
            hfresh j hj1 (by simp only [List.length_cons] at hj2 ⊢; omega))
          (fun j k hj hk hne =>
            hinj j k (by simp only [List.length_cons] at hj ⊢; omega)
              (by simp only [List.length_cons] at hk ⊢; omega) hne)
        refine ⟨ext, asg, h1, h2, ?_⟩
        rw [filter_accept_cons_neg _ hacc]
        exact h3

/-- C3: for discovered devices with pairwise distinct identifiers (and fresh
random draws in the first run), running reconciliation a second time against
the store the first run produced assigns every device the same handle, no
matter what the second run's random source would return. -/
theorem reconcile_idempotent {C : Type} (ops : ControllerOps C)
    (rand rand2 : Nat → Nat) (entries : List DirEntry) (config : Config)
    (_hdistinct : ((entries.filter (fun x => acceptName x.name)).map
      (identOf ops)).Nodup)
    (hfresh : ∀ j, j < entries.length →
      lookupA config.gpu_configs (rand j % U32) = none)
    (hinj : ∀ j, j < entries.length → ∀ k, k < entries.length → j ≠ k →
      rand j % U32 ≠ rand k % U32) :
    (Daemon.load_gpu_controllers ops rand2 entries
      (Daemon.load_gpu_controllers ops rand entries config).config).assignments =
    (Daemon.load_gpu_controllers ops rand entries config).assignments := by
  obtain ⟨ext, asg1, h1, h2, h3⟩ :=
    recon_first_run ops rand entries ⟨[], config, 0, []⟩
      (fun j hj1 hj2 => hfresh j (by simpa using hj2))
      (fun j k hj hk hne => hinj j (by simpa using hj) k (by simpa using hk) hne)
  have hall : ∀ e ∈ entries, acceptName e.name = true →
      (firstMatch (Daemon.load_gpu_controllers ops rand entries
        config).config.gpu_configs (identOf ops e)).isSome = true := by
    intro e he hacc
    have hmem : e ∈ entries.filter (fun x => acceptName x.name) :=
      List.mem_filter.mpr ⟨he, hacc⟩
    have hv := forall₂_fun_mem h3 e hmem
    simpa using hv
  obtain ⟨hcfg, asg2, h4, h5⟩ := recon_all_match ops rand2 entries
    ⟨[], (Daemon.load_gpu_controllers ops rand entries config).config, 0, []⟩
    hall
  have heq : asg2 = asg1 := forall₂_fun_unique h5 h3
  show (entries.foldl (reconStep ops rand2)
      ⟨[], (Daemon.load_gpu_controllers ops rand entries config).config, 0,
        []⟩).assignments =
    (entries.foldl (reconStep ops rand) ⟨[], config, 0, []⟩).assignments
  rw [h4, h2, heq]

/-- A discovered `card1` entry whose identifier differs from `wE0`'s. -/
def wE1 : DirEntry := ⟨"card1", "p1"⟩

/-- Witness for C3 at two concrete devices over an empty store. -/
theorem reconcile_idempotent_witness :
    (Daemon.load_gpu_controllers simpleOps (fun _ => 0) [wE0, wE1]
      (Daemon.load_gpu_controllers simpleOps (fun j => j) [wE0, wE1]
        ({} : Config)).config).assignments =
    (Daemon.load_gpu_controllers simpleOps (fun j => j) [wE0, wE1]
      ({} : Config)).assignments :=
  reconcile_idempotent simpleOps (fun j => j) (fun _ => 0) [wE0, wE1] {}
    (by decide) (by decide) (by decide)

end Lact
